import Mathlib

/-!
Verification development for the Universal Log Analyzer
(`api/main.py`, `scripts/anomaly_detector.py`).

The Python source is shallowly embedded below:

* Python dicts holding JSON-like values become association lists over a
  small `JVal` type; `dict.update` and item assignment are `pyUpdate` and
  `dinsert` with Python overwrite semantics.
* `json.loads` is modelled by `jsonLoads`, a recursive-descent parser for
  the JSON fragment exercised by the repository (objects, arrays, strings
  without escapes beyond the common single-character ones, integer
  numbers, `true`/`false`/`null`).  Timestamp string validation
  (`datetime.fromisoformat`) is modelled by `isoOk` for the canonical
  `YYYY-MM-DDTHH:MM:SS[.f][+HH:MM]` shapes; no claim depends on which
  exact timestamp strings are accepted.
* Python regular expressions from `LOG_PATTERNS` and
  `extract_network_info` are transcribed into a small regex AST `Rx` run
  by a fuelled backtracking matcher `mstk` whose alternative order mirrors
  Python's leftmost / first-alternative / greedy-lazy preferences.
* Floating point arithmetic in the anomaly detectors is idealised over
  `ℚ` (with the source's `1e-6` epsilon kept); the z-score comparison
  against `std = sqrt(var)` is implemented by the decidable predicate
  `zGT`, proved equivalent to the real-valued formula in `zGT_iff`.
-/

/-- The `{` character, used when modelling JSON input. -/
def lbrace : Char := Char.ofNat 123

/-- The `}` character. -/
def rbrace : Char := Char.ofNat 125

/-- JSON-like values, the model of what `json.loads` produces (numbers are
restricted to integers: no line relevant to a claim carries a float). -/
inductive JVal where
  | str (s : String)
  | num (n : Int)
  | bool (b : Bool)
  | null
  | arr (xs : List JVal)
  | obj (kvs : List (String × JVal))
deriving Repr

/-- Association-list lookup, first hit wins. -/
def dlookup (d : List (String × JVal)) (k : String) : Option JVal :=
  match d with
  | [] => none
  | (k0, v) :: rest => if k0 = k then some v else dlookup rest k

/-- Python dict item assignment `d[k] = v`: overwrite in place if the key
exists, else append at the end. -/
def dinsert (d : List (String × JVal)) (k : String) (v : JVal) : List (String × JVal) :=
  match d with
  | [] => [(k, v)]
  | (k0, v0) :: rest => if k0 = k then (k0, v) :: rest else (k0, v0) :: dinsert rest k v

/-- Python `dict.update(extra)`: every key of `extra` is assigned into `d`
in order, overwriting existing keys. -/
def pyUpdate (d extra : List (String × JVal)) : List (String × JVal) :=
  match extra with
  | [] => d
  | (k, v) :: rest => pyUpdate (dinsert d k v) rest

/-- The `dict.get(k, default)` for string-keyed string maps. -/
def slookupD (d : List (String × String)) (k : String) (dflt : String) : String :=
  match d with
  | [] => dflt
  | (k0, v) :: rest => if k0 = k then v else slookupD rest k dflt

/-- Membership of a key in an association list. -/
def hasKey (d : List (String × JVal)) (k : String) : Bool :=
  match d with
  | [] => false
  | (k0, _) :: rest => k0 = k || hasKey rest k

/-- Python `str.upper` (ASCII fragment), written over the character list
so that it reduces in the kernel. -/
def pyUpper (s : String) : String := String.mk (s.toList.map Char.toUpper)

/-- Python `str.isdigit` on the ASCII fragment: nonempty and all digits. -/
def isDigitStr (s : String) : Bool :=
  s ≠ "" && s.toList.all Char.isDigit

/-- Digit string to natural number, as Python `int(...)` on `\d+` captures. -/
def strToNat (s : String) : Nat :=
  s.toList.foldl (fun a c => a * 10 + (c.toNat - 48)) 0

/-- JSON whitespace skipping inside `jsonLoads`. -/
def jskip (s : List Char) : List Char :=
  match s with
  | c :: rest => if c = ' ' || c = '\t' || c = '\n' || c = '\r' then jskip rest else s
  | [] => []

/-- String body parser for `jsonLoads`: consumes up to the closing quote,
handling the single-character escapes; `\u` escapes are outside the
modelled fragment. -/
def jstr (fuel : Nat) (s : List Char) (acc : List Char) : Option (String × List Char) :=
  match fuel, s with
  | 0, _ => none
  | _, [] => none
  | fuel + 1, c :: rest =>
    if c = '"' then some (String.mk acc.reverse, rest)
    else if c = '\\' then
      match rest with
      | e :: rest2 =>
        if e = '"' then jstr fuel rest2 ('"' :: acc)
        else if e = '\\' then jstr fuel rest2 ('\\' :: acc)
        else if e = '/' then jstr fuel rest2 ('/' :: acc)
        else if e = 'n' then jstr fuel rest2 ('\n' :: acc)
        else if e = 't' then jstr fuel rest2 ('\t' :: acc)
        else if e = 'r' then jstr fuel rest2 ('\r' :: acc)
        else none
      | [] => none
    else jstr fuel rest (c :: acc)

/-- Integer literal parser for `jsonLoads`.  A number followed by `.`, `e`
or `E` would be a float, which is outside the modelled fragment, so the
parse fails there. -/
def jnum (s : List Char) : Option (Int × List Char) :=
  let (neg, s1) := match s with
    | '-' :: rest => (true, rest)
    | _ => (false, s)
  let ds := s1.takeWhile Char.isDigit
  let rest := s1.dropWhile Char.isDigit
  if ds = [] then none
  else match rest with
    | c :: _ => if c = '.' || c = 'e' || c = 'E' then none
        else some (if neg then -(strToNat (String.mk ds) : Int) else (strToNat (String.mk ds) : Int), rest)
    | [] => some (if neg then -(strToNat (String.mk ds) : Int) else (strToNat (String.mk ds) : Int), rest)

/-- Does the list start with the given literal characters? -/
def startsChars (s : List Char) (lit : List Char) : Bool :=
  match lit, s with
  | [], _ => true
  | l :: ls, c :: cs => c = l && startsChars cs ls
  | _ :: _, [] => false

mutual
/-- Value parser of the `json.loads` model. -/
def jval (fuel : Nat) (s : List Char) : Option (JVal × List Char) :=
  match fuel with
  | 0 => none
  | fuel + 1 =>
    match jskip s with
    | [] => none
    | c :: rest =>
      if c = '"' then (jstr fuel rest []).map (fun (v, r) => (JVal.str v, r))
      else if c = lbrace then jobj fuel (jskip rest) true []
      else if c = '[' then jarr fuel (jskip rest) true []
      else if startsChars (c :: rest) ['t','r','u','e'] then some (JVal.bool true, (c :: rest).drop 4)
      else if startsChars (c :: rest) ['f','a','l','s','e'] then some (JVal.bool false, (c :: rest).drop 5)
      else if startsChars (c :: rest) ['n','u','l','l'] then some (JVal.null, (c :: rest).drop 4)
      else (jnum (c :: rest)).map (fun (v, r) => (JVal.num v, r))

/-- Object member parser; duplicate keys overwrite as in Python dicts. -/
def jobj (fuel : Nat) (s : List Char) (first : Bool) (acc : List (String × JVal)) :
    Option (JVal × List Char) :=
  match fuel with
  | 0 => none
  | fuel + 1 =>
    match jskip s with
    | [] => none
    | c :: rest =>
      if c = rbrace then some (JVal.obj acc, rest)
      else
        let s2 := if first then c :: rest
          else if c = ',' then jskip rest else []
        match s2 with
        | '"' :: body =>
          match jstr fuel body [] with
          | some (k, afterKey) =>
            match jskip afterKey with
            | ':' :: afterColon =>
              match jval fuel afterColon with
              | some (v, afterVal) => jobj fuel afterVal false (dinsert acc k v)
              | none => none
            | _ => none
          | none => none
        | _ => none

/-- Array element parser. -/
def jarr (fuel : Nat) (s : List Char) (first : Bool) (acc : List JVal) :
    Option (JVal × List Char) :=
  match fuel with
  | 0 => none
  | fuel + 1 =>
    match jskip s with
    | [] => none
    | c :: rest =>
      if c = ']' then some (JVal.arr acc.reverse, rest)
      else
        let s2 := if first then c :: rest
          else if c = ',' then jskip rest else []
        match jval fuel s2 with
        | some (v, afterVal) => jarr fuel afterVal false (acc ++ [v])
        | none => none
end

/-- Model of `json.loads`: the whole input (modulo surrounding whitespace)
must be one JSON value. -/
def jsonLoads (s : String) : Option JVal :=
  let cs := s.toList
  match jval (cs.length * 4 + 8) cs with
  | some (v, rest) => if jskip rest = [] then some v else none
  | none => none

example : jsonLoads "\x7b\"a\":\"b\",\"n\":12\x7d" =
    some (JVal.obj [("a", JVal.str "b"), ("n", JVal.num 12)]) := rfl

/-! ### A small backtracking regex engine

`Rx` transcribes the regular expressions of `api/main.py`; `mstk` runs a
frame stack with Python `re`'s preference order: alternatives left to
right, greedy repetition longest first, lazy repetition shortest first.
Matching is anchored at the start (Python `re.match`); `re.search` and
`re.finditer`/`findall` are derived by scanning start positions left to
right. -/

/-- The `\w` (ASCII fragment: the inputs of this repository are ASCII). -/
def wordChar (c : Char) : Bool := c.isAlphanum || c = '_'

/-- The `\d`. -/
def digitChar (c : Char) : Bool := c.isDigit

/-- The `\s` (Python also counts `\x0b`/`\x0c`; the extra two never occur in
inputs relevant to a claim). -/
def spaceChar (c : Char) : Bool := c = ' ' || c = '\t' || c = '\n' || c = '\r' || c = '\x0b' || c = '\x0c'

/-- Regex AST.  `star`/`opt` carry `true` when lazy (`*?` is `star true`),
`grp` is a named capturing group, `bnd` is `\b`, `eos` is `$`. -/
inductive Rx where
  | eps
  | chr (c : Char)
  | cls (p : Char → Bool)
  | dot
  | seq (a b : Rx)
  | alt (a b : Rx)
  | star (lazy : Bool) (r : Rx)
  | opt (lazy : Bool) (r : Rx)
  | grp (name : String) (r : Rx)
  | bnd
  | eos

/-- Concatenation of a list of regexes. -/
def rcat (rs : List Rx) : Rx := rs.foldr Rx.seq Rx.eps

/-- Literal string regex. -/
def rlit (s : String) : Rx := rcat (s.toList.map Rx.chr)

/-- Ordered alternation of a nonempty list. -/
def ralts (rs : List Rx) : Rx :=
  match rs with
  | [] => Rx.eps
  | [r] => r
  | r :: rest => Rx.alt r (ralts rest)

/-- The `r{n}`. -/
def rrep (n : Nat) (r : Rx) : Rx :=
  match n with
  | 0 => Rx.eps
  | n + 1 => Rx.seq r (rrep n r)

/-- The `r+` (greedy) and `r+?` (lazy), as `r r*`. -/
def rplus (lazy : Bool) (r : Rx) : Rx := Rx.seq r (Rx.star lazy r)

/-- Captures: name to matched text, most recent first. -/
abbrev Caps := List (String × String)

/-- Work items of the matcher: a regex to match, a pending capture close
(remembering the suffix at group start), or a progress guard used to cut
zero-width repetition. -/
inductive Fr where
  | rx (r : Rx)
  | close (name : String) (start : List Char)
  | prog (len : Nat)

/-- One backtracking matcher step over the frame stack.  Succeeds (with
captures and the unconsumed suffix) when the stack empties.  `ci` is
`re.IGNORECASE`; `prev` is the previously consumed character, needed for
`\b`.  Fuel bounds recursion depth; every concrete run below is given
ample fuel. -/
def mstk (ci : Bool) : Nat → List Fr → List Char → Option Char → Caps →
    Option (Caps × List Char)
  | 0, _, _, _, _ => none
  | _ + 1, [], s, _, caps => some (caps, s)
  | fuel + 1, Fr.close n st :: rest, s, prev, caps =>
      mstk ci fuel rest s prev ((n, String.mk (st.take (st.length - s.length))) :: caps)
  | fuel + 1, Fr.prog len :: rest, s, prev, caps =>
      if s.length < len then mstk ci fuel rest s prev caps else none
  | fuel + 1, Fr.rx r :: rest, s, prev, caps =>
    match r with
    | Rx.eps => mstk ci fuel rest s prev caps
    | Rx.chr c =>
      match s with
      | [] => none
      | a :: s2 =>
        if (if ci then a.toLower = c.toLower else a = c) then
          mstk ci fuel rest s2 (some a) caps
        else none
    | Rx.cls p =>
      match s with
      | [] => none
      | a :: s2 =>
        if p a || (ci && (p a.toLower || p a.toUpper)) then
          mstk ci fuel rest s2 (some a) caps
        else none
    | Rx.dot =>
      match s with
      | [] => none
      | a :: s2 => if a = '\n' then none else mstk ci fuel rest s2 (some a) caps
    | Rx.seq a b => mstk ci fuel (Fr.rx a :: Fr.rx b :: rest) s prev caps
    | Rx.alt a b =>
      (mstk ci fuel (Fr.rx a :: rest) s prev caps) <|>
        (mstk ci fuel (Fr.rx b :: rest) s prev caps)
    | Rx.star lz r1 =>
      let once := Fr.rx r1 :: Fr.prog s.length :: Fr.rx (Rx.star lz r1) :: rest
      if lz then (mstk ci fuel rest s prev caps) <|> (mstk ci fuel once s prev caps)
      else (mstk ci fuel once s prev caps) <|> (mstk ci fuel rest s prev caps)
    | Rx.opt lz r1 =>
      if lz then (mstk ci fuel rest s prev caps) <|> (mstk ci fuel (Fr.rx r1 :: rest) s prev caps)
      else (mstk ci fuel (Fr.rx r1 :: rest) s prev caps) <|> (mstk ci fuel rest s prev caps)
    | Rx.grp n r1 => mstk ci fuel (Fr.rx r1 :: Fr.close n s :: rest) s prev caps
    | Rx.bnd =>
      let before := match prev with | some c => wordChar c | none => false
      let after := match s with | a :: _ => wordChar a | [] => false
      if before ≠ after then mstk ci fuel rest s prev caps else none
    | Rx.eos =>
      match s with
      | [] => mstk ci fuel rest s prev caps
      | _ => none

/-- Fuel budget: generous and input-proportional. -/
def rxFuel (s : List Char) : Nat := 2000 + 400 * s.length

/-- The `re.match(rx, s)` at the start of `s` (with the character preceding
the scan position, for `\b`). -/
def reMatchAt (ci : Bool) (r : Rx) (s : List Char) (prev : Option Char) :
    Option (Caps × List Char) :=
  mstk ci (rxFuel s) [Fr.rx r] s prev []

/-- The `re.match`. -/
def reMatch (ci : Bool) (r : Rx) (s : List Char) : Option (Caps × List Char) :=
  reMatchAt ci r s none

/-- The `re.search`: try each start position left to right. -/
def reSearchAux (ci : Bool) (r : Rx) (s : List Char) (prev : Option Char) :
    Option (Caps × List Char) :=
  match reMatchAt ci r s prev with
  | some res => some res
  | none =>
    match s with
    | [] => none
    | c :: rest => reSearchAux ci r rest (some c)

/-- The `re.search` from the start of the string. -/
def reSearch (ci : Bool) (r : Rx) (s : List Char) : Option (Caps × List Char) :=
  reSearchAux ci r s none

/-- Look up the most recent capture of a group. -/
def capGet (caps : Caps) (n : String) : Option String :=
  match caps with
  | [] => none
  | (n0, v) :: rest => if n0 = n then some v else capGet rest n

/-- The `re.finditer` scan: leftmost non-overlapping matches.  A zero-width
match advances by one character (no pattern in the source can match
zero-width, the branch is only for totality). -/
def findAllAux (ci : Bool) (r : Rx) : Nat → List Char → Option Char → List Caps
  | 0, _, _ => []
  | fuel + 1, s, prev =>
    match reMatchAt ci r s prev with
    | some (caps, rest) =>
      let consumed := s.length - rest.length
      if consumed = 0 then
        match s with
        | [] => [caps]
        | c :: cs => caps :: findAllAux ci r fuel cs (some c)
      else caps :: findAllAux ci r fuel rest ((s.take consumed).getLast?)
    | none =>
      match s with
      | [] => []
      | c :: cs => findAllAux ci r fuel cs (some c)

/-- All non-overlapping matches of `r` in `s`. -/
def findAll (ci : Bool) (r : Rx) (s : List Char) : List Caps :=
  findAllAux ci r (s.length + 1) s none

/-! ### The format registry (`LOG_PATTERNS`, `api/main.py` lines 55-87) -/

/-- The `\s` as a regex. -/
def wS : Rx := Rx.cls spaceChar

/-- The `\d`. -/
def wD : Rx := Rx.cls digitChar

/-- The `\w`. -/
def wW : Rx := Rx.cls wordChar

/-- The `\S`. -/
def nS : Rx := Rx.cls (fun c => !spaceChar c)

/-- The `\s+`. -/
def sp1 : Rx := rplus false wS

/-- The `\s*`. -/
def sp0 : Rx := Rx.star false wS

/-- The `.*?`. -/
def lazyAny : Rx := Rx.star true Rx.dot

/-- The `\d+\.\d+\.\d+\.\d+` (the firewall pattern's IP shape). -/
def ipDots : Rx :=
  rcat [rplus false wD, Rx.chr '.', rplus false wD, Rx.chr '.',
        rplus false wD, Rx.chr '.', rplus false wD]

/-- One registry entry: name, transcribed pattern, the names `groupdict()`
reports (all of them, matched or not), and the optional `level_map`.
The `timestamp_format` fields of the source are not modelled: timestamp
parsing only fills `parsed_timestamp`, which no claim observes. -/
structure PatEntry where
  pname : String
  rx : Rx
  groupNames : List String
  levelMap : Option (List (String × String))

/-- The `syslog` pattern. -/
def syslogRx : Rx := rcat [
  Rx.grp "timestamp" (rcat [rrep 3 wW, sp1, wD, Rx.opt false wD, sp1,
    rrep 2 wD, Rx.chr ':', rrep 2 wD, Rx.chr ':', rrep 2 wD]),
  sp1, Rx.grp "hostname" (rplus false nS),
  sp1, Rx.grp "program" (rplus true nS),
  Rx.opt false (rcat [Rx.chr '[', Rx.grp "pid" (rplus false wD), Rx.chr ']']),
  Rx.chr ':', sp0, Rx.grp "message" (Rx.star false Rx.dot), Rx.eos]

/-- The `apache_access` pattern. -/
def apacheRx : Rx := rcat [
  Rx.grp "remote_addr" (rplus false nS), sp1, rplus false nS, sp1, rplus false nS, sp1,
  Rx.chr '[', Rx.grp "timestamp" (rplus false (Rx.cls (fun c => !(c == ']')))), Rx.chr ']', sp1,
  Rx.chr '"', Rx.grp "method" (rplus false nS), sp1, Rx.grp "url" (rplus false nS), sp1,
  Rx.grp "protocol" (rplus false nS), Rx.chr '"', sp1,
  Rx.grp "status" (rplus false wD), sp1, Rx.grp "size" (rplus false nS),
  Rx.opt false (rcat [sp1, Rx.chr '"',
    Rx.grp "referer" (Rx.star false (Rx.cls (fun c => !(c == '"')))), Rx.chr '"']),
  sp0,
  Rx.opt false (rcat [Rx.chr '"',
    Rx.grp "user_agent" (Rx.star false (Rx.cls (fun c => !(c == '"')))), Rx.chr '"'])]

/-- The `nginx_access` pattern. -/
def nginxRx : Rx := rcat [
  Rx.grp "remote_addr" (rplus false nS), sp1, Rx.chr '-', sp1, rplus false nS, sp1,
  Rx.chr '[', Rx.grp "timestamp" (rplus false (Rx.cls (fun c => !(c == ']')))), Rx.chr ']', sp1,
  Rx.chr '"', Rx.grp "method" (rplus false nS), sp1, Rx.grp "url" (rplus false nS), sp1,
  Rx.grp "protocol" (rplus false nS), Rx.chr '"', sp1,
  Rx.grp "status" (rplus false wD), sp1, Rx.grp "size" (rplus false nS), sp1,
  Rx.chr '"', Rx.grp "referer" (Rx.star false (Rx.cls (fun c => !(c == '"')))), Rx.chr '"', sp1,
  Rx.chr '"', Rx.grp "user_agent" (Rx.star false (Rx.cls (fun c => !(c == '"')))), Rx.chr '"']

/-- The `firewall` pattern. -/
def firewallRx : Rx := rcat [
  lazyAny, Rx.grp "action" (ralts [rlit "ACCEPT", rlit "DENY", rlit "DROP", rlit "REJECT"]),
  lazyAny, rlit "SRC=", Rx.grp "src_ip" ipDots,
  lazyAny, rlit "DST=", Rx.grp "dst_ip" ipDots,
  lazyAny, Rx.opt false (rcat [rlit "SPT=", Rx.grp "src_port" (rplus false wD)]),
  lazyAny, Rx.opt false (rcat [rlit "DPT=", Rx.grp "dst_port" (rplus false wD)]),
  lazyAny, Rx.opt false (rcat [rlit "PROTO=", Rx.grp "protocol" (rplus false wW)])]

/-- The `cisco_syslog` pattern. -/
def ciscoRx : Rx := rcat [
  Rx.grp "timestamp" (rcat [rrep 3 wW, sp1, wD, Rx.opt false wD, sp1,
    rrep 2 wD, Rx.chr ':', rrep 2 wD, Rx.chr ':', rrep 2 wD,
    Rx.opt false (rcat [Rx.chr '.', rrep 3 wD])]),
  sp0, Rx.opt false (Rx.grp "timezone" (rplus false nS)), sp0,
  Rx.opt false (Rx.chr ':'), sp0, Rx.opt false (Rx.chr '%'),
  Rx.grp "facility" (rplus false wW), Rx.chr '-', Rx.grp "severity" (rplus false wD),
  Rx.chr '-', Rx.grp "mnemonic" (rplus false wW), Rx.chr ':', sp0,
  Rx.grp "message" (Rx.star false Rx.dot), Rx.eos]

/-- The `windows_event` pattern. -/
def windowsRx : Rx := rcat [
  Rx.grp "timestamp" (rcat [rrep 4 wD, Rx.chr '-', rrep 2 wD, Rx.chr '-', rrep 2 wD, sp1,
    rrep 2 wD, Rx.chr ':', rrep 2 wD, Rx.chr ':', rrep 2 wD]),
  sp1, Rx.grp "level" (rplus false wW), sp1, Rx.grp "event_id" (rplus false wD),
  sp1, Rx.grp "source" (rplus false nS), sp1, Rx.grp "message" (Rx.star false Rx.dot), Rx.eos]

/-- The `json_structured` pattern. -/
def jsonStructRx : Rx := rcat [Rx.chr lbrace, Rx.star false Rx.dot, Rx.chr rbrace, Rx.eos]

/-- The `docker` pattern. -/
def dockerRx : Rx := rcat [
  Rx.grp "timestamp" (rcat [rrep 4 wD, Rx.chr '-', rrep 2 wD, Rx.chr '-', rrep 2 wD,
    Rx.chr 'T', rrep 2 wD, Rx.chr ':', rrep 2 wD, Rx.chr ':', rrep 2 wD,
    Rx.chr '.', rplus false wD, Rx.chr 'Z']),
  sp1, Rx.grp "level" (rplus false wW), sp1, Rx.grp "container_id" (rplus false wW),
  sp1, Rx.grp "message" (Rx.star false Rx.dot), Rx.eos]

/-- The `LOG_PATTERNS` in its declared (dict-insertion) order.  Note: the
source declares `syslog` first and `cisco_syslog` fifth. -/
def LOG_PATTERNS : List PatEntry := [
  { pname := "syslog", rx := syslogRx,
    groupNames := ["timestamp", "hostname", "program", "pid", "message"], levelMap := none },
  { pname := "apache_access", rx := apacheRx,
    groupNames := ["remote_addr", "timestamp", "method", "url", "protocol", "status", "size",
      "referer", "user_agent"], levelMap := none },
  { pname := "nginx_access", rx := nginxRx,
    groupNames := ["remote_addr", "timestamp", "method", "url", "protocol", "status", "size",
      "referer", "user_agent"], levelMap := none },
  { pname := "firewall", rx := firewallRx,
    groupNames := ["action", "src_ip", "dst_ip", "src_port", "dst_port", "protocol"],
    levelMap := some [("ACCEPT", "INFO"), ("DENY", "WARN"), ("DROP", "WARN"), ("REJECT", "ERROR")] },
  { pname := "cisco_syslog", rx := ciscoRx,
    groupNames := ["timestamp", "timezone", "facility", "severity", "mnemonic", "message"],
    levelMap := some [("0", "EMERGENCY"), ("1", "ALERT"), ("2", "CRITICAL"), ("3", "ERROR"),
      ("4", "WARN"), ("5", "NOTICE"), ("6", "INFO"), ("7", "DEBUG")] },
  { pname := "windows_event", rx := windowsRx,
    groupNames := ["timestamp", "level", "event_id", "source", "message"], levelMap := none },
  { pname := "json_structured", rx := jsonStructRx, groupNames := [], levelMap := none },
  { pname := "docker", rx := dockerRx,
    groupNames := ["timestamp", "level", "container_id", "message"], levelMap := none }]

example : (reMatch false syslogRx "Jul 10 12:00:01 router %SYS-5-CONFIG: configured".toList).isSome = true := rfl

example : (reMatch false ciscoRx "Jul 10 12:00:01 router %SYS-5-CONFIG: configured".toList).isSome = true := rfl

/-! ### `parse_structured_log` (`api/main.py` lines 203-234) -/

/-- The `groupdict()` extended with the keys the code adds: values are
`Option String` because `groupdict` reports non-participating groups as
`None`. -/
abbrev PData := List (String × Option String)

/-- Key membership in a `PData`. -/
def pdHasKey (d : PData) (k : String) : Bool :=
  match d with
  | [] => false
  | (k0, _) :: rest => k0 = k || pdHasKey rest k

/-- The `d[k]` on a `PData` (defaulting to `None` for an absent key; the code
only reads keys it has checked). -/
def pdGet (d : PData) (k : String) : Option String :=
  match d with
  | [] => none
  | (k0, v) :: rest => if k0 = k then v else pdGet rest k

/-- The `level_map.get(value, 'INFO')` where `value` may be `None`. -/
def levelMapGet (lm : List (String × String)) (v : Option String) : String :=
  match v with
  | some s => slookupD lm s "INFO"
  | none => "INFO"

/-- First registry entry whose regex matches the line (`re.match`). -/
def firstPatMatch (pats : List PatEntry) (line : List Char) : Option (PatEntry × Caps) :=
  match pats with
  | [] => none
  | e :: rest =>
    match reMatch false e.rx line with
    | some (caps, _) => some (e, caps)
    | none => firstPatMatch rest line

/-- The dictionary `parse_structured_log` builds for a matched entry:
`groupdict()` plus `log_type` and, for entries with a `level_map`, a
`level` derived from the `severity` or `action` capture.  The
`parsed_timestamp` key (a `datetime`, swallowed on failure) is not
modelled: no claim observes it and its computation cannot raise out of
the function. -/
def psGd (e : PatEntry) (caps : Caps) : PData :=
  let gd : PData := e.groupNames.map (fun n => (n, capGet caps n)) ++ [("log_type", some e.pname)]
  match e.levelMap with
  | none => gd
  | some lm =>
    if pdHasKey gd "severity" then gd ++ [("level", some (levelMapGet lm (pdGet gd "severity")))]
    else if pdHasKey gd "action" then gd ++ [("level", some (levelMapGet lm (pdGet gd "action")))]
    else gd

/-- The `parse_structured_log`: iterate `LOG_PATTERNS` in declared order;
the first matching regex wins; no match gives the empty dict. -/
def parse_structured_log (line : String) : PData :=
  match firstPatMatch LOG_PATTERNS line.toList with
  | none => []
  | some (e, caps) => psGd e caps

/-! ### `extract_network_info` (`api/main.py` lines 116-173) -/

/-- The `\d{1,3}` (greedy). -/
def oct13 : Rx := rcat [wD, Rx.opt false wD, Rx.opt false wD]

/-- The `\b(?P<ip>\d{1,3}\.\d{1,3}\.\d{1,3}\.\d{1,3})\b`. -/
def ipFindRx : Rx := rcat [Rx.bnd,
  Rx.grp "ip" (rcat [oct13, Rx.chr '.', oct13, Rx.chr '.', oct13, Rx.chr '.', oct13]), Rx.bnd]

/-- The `[=:]`. -/
def eqColon : Rx := Rx.cls (fun c => c == '=' || c == ':')

/-- The four port patterns, in source order (all searched with
`re.IGNORECASE`). -/
def portPatterns : List Rx := [
  rcat [ralts [rlit "port", rlit "PORT"], sp0, eqColon, sp0, Rx.grp "port" (rplus false wD)],
  rcat [ralts [rlit "src_port", rlit "SRC_PORT", rlit "SPT"], sp0, eqColon, sp0,
    Rx.grp "port" (rplus false wD)],
  rcat [ralts [rlit "dst_port", rlit "DST_PORT", rlit "DPT"], sp0, eqColon, sp0,
    Rx.grp "port" (rplus false wD)],
  rcat [Rx.chr ':', Rx.grp "port" (rplus false wD), Rx.bnd]]

/-- The two protocol patterns, in source order (searched with
`re.IGNORECASE`). -/
def protoPatterns : List Rx := [
  rcat [ralts [rlit "proto", rlit "protocol", rlit "PROTO"], sp0, eqColon, sp0,
    Rx.grp "proto" (rplus false wW)],
  rcat [Rx.bnd, Rx.grp "proto" (ralts [rlit "TCP", rlit "UDP", rlit "ICMP", rlit "HTTP",
    rlit "HTTPS", rlit "FTP", rlit "SSH", rlit "SMTP", rlit "DNS", rlit "DHCP", rlit "SNMP"]),
    Rx.bnd]]

/-- The `[0-9A-Fa-f]`. -/
def hexChar (c : Char) : Bool :=
  c.isDigit || ('A' ≤ c && c ≤ 'F') || ('a' ≤ c && c ≤ 'f')

/-- The `\b(?P<mac>(?:[0-9A-Fa-f]{2}[:-]){5}[0-9A-Fa-f]{2})\b`. -/
def macRx : Rx := rcat [Rx.bnd,
  Rx.grp "mac" (rcat [rrep 5 (rcat [rrep 2 (Rx.cls hexChar),
    Rx.cls (fun c => c == ':' || c == '-')]), rrep 2 (Rx.cls hexChar)]), Rx.bnd]

/-- The `extract_network_info`: IPs (first two become `src_ip`/`dst_ip`, a
single one `ip_address`), ports (deduplicated as strings, value range
1..65535), protocols (uppercased, deduplicated), MAC addresses. -/
def extract_network_info (message : String) : List (String × JVal) :=
  let s := message.toList
  let ips := (findAll false ipFindRx s).filterMap (fun caps => capGet caps "ip")
  let ni : List (String × JVal) := []
  let ni := if ips.isEmpty then ni else
    let ni := dinsert ni "ip_addresses" (JVal.arr (ips.map JVal.str))
    match ips with
    | a :: b :: _ => dinsert (dinsert ni "src_ip" (JVal.str a)) "dst_ip" (JVal.str b)
    | [a] => dinsert ni "ip_address" (JVal.str a)
    | [] => ni
  let ports := portPatterns.foldl (fun acc pat =>
    (findAll true pat s).foldl (fun acc2 caps =>
      match capGet caps "port" with
      | some p =>
        if !(acc2.contains p) && 1 ≤ strToNat p && strToNat p ≤ 65535 then acc2 ++ [p] else acc2
      | none => acc2) acc) []
  let ni := if ports.isEmpty then ni else dinsert ni "ports" (JVal.arr (ports.map JVal.str))
  let protos := protoPatterns.foldl (fun acc pat =>
    (findAll true pat s).foldl (fun acc2 caps =>
      match capGet caps "proto" with
      | some pr => if acc2.contains (pyUpper pr) then acc2 else acc2 ++ [pyUpper pr]
      | none => acc2) acc) []
  let ni := if protos.isEmpty then ni else dinsert ni "protocols" (JVal.arr (protos.map JVal.str))
  let macs := (findAll false macRx s).filterMap (fun caps => capGet caps "mac")
  if macs.isEmpty then ni else dinsert ni "mac_addresses" (JVal.arr (macs.map JVal.str))

/-! ### `extract_log_level` (`api/main.py` lines 175-201)

The seven `LEVEL_PATTERNS` all have the shape `\b(w1|w2|...)\b` with
purely alphabetic alternatives, and `<(\d+)>` is a literal-delimited
digit run, so instead of the generic engine they are modelled by direct
scanners mirroring `re.search`: start positions left to right, and at a
position alternatives in declared order. -/

/-- Case-insensitive literal prefix match, returning the rest. -/
def matchCI : List Char → List Char → Option (List Char)
  | [], s => some s
  | l :: ls, c :: cs => if c.toLower = l.toLower then matchCI ls cs else none
  | _ :: _, [] => none

/-- First alternative of `ws` matching at this position with a trailing
word boundary (the leading boundary is checked by the caller). -/
def wordsHere (ws : List String) (s : List Char) : Option String :=
  match ws with
  | [] => none
  | w :: rest =>
    match matchCI w.toList s with
    | some restS =>
      let before := match w.toList.getLast? with | some c => wordChar c | none => false
      let after := match restS with | c :: _ => wordChar c | _ => false
      if before ≠ after then some w else wordsHere rest s
    | none => wordsHere rest s

/-- One scan position of the `\b(w1|...|wk)\b` search: the leading word
boundary against the previously consumed character, then the
alternatives. -/
def searchHere (ws : List String) (s : List Char) (prev : Option Char) : Option String :=
  let before := match prev with | some c => wordChar c | none => false
  let after := match s with | c :: _ => wordChar c | _ => false
  if before ≠ after then wordsHere ws s else none

/-- The `re.search` of `\b(w1|...|wk)\b` with `IGNORECASE`: returns the
(pattern-order) alternative found at the leftmost matching position. -/
def searchWordAux (ws : List String) : List Char → Option Char → Option String
  | [], prev => searchHere ws [] prev
  | c :: cs, prev =>
    match searchHere ws (c :: cs) prev with
    | some w => some w
    | none => searchWordAux ws cs (some c)

/-- The `LEVEL_PATTERNS`: the alternatives of the seven patterns, in declared
priority order. -/
def LEVEL_CLASSES : List (List String) := [
  ["EMERGENCY", "EMERG", "PANIC"],
  ["ALERT"],
  ["CRITICAL", "CRIT", "FATAL"],
  ["ERROR", "ERR", "FAIL", "FAILED"],
  ["WARNING", "WARN", "NOTICE"],
  ["INFO", "INFORMATION"],
  ["DEBUG", "TRACE"]]

/-- The `LEVEL_MAP`. -/
def LEVEL_MAP : List (String × String) := [
  ("EMERGENCY", "EMERGENCY"), ("EMERG", "EMERGENCY"), ("PANIC", "EMERGENCY"),
  ("ALERT", "ALERT"),
  ("CRITICAL", "CRITICAL"), ("CRIT", "CRITICAL"), ("FATAL", "CRITICAL"),
  ("ERROR", "ERROR"), ("ERR", "ERROR"), ("FAIL", "ERROR"), ("FAILED", "ERROR"),
  ("WARNING", "WARN"), ("WARN", "WARN"), ("NOTICE", "WARN"),
  ("INFO", "INFO"), ("INFORMATION", "INFO"),
  ("DEBUG", "DEBUG"), ("TRACE", "DEBUG")]

/-- The loop over `LEVEL_PATTERNS`: first pattern with a hit wins; the
matched word is returned. -/
def levelKeywordHit (classes : List (List String)) (s : List Char) : Option String :=
  match classes with
  | [] => none
  | c :: rest =>
    match searchWordAux c s none with
    | some w => some w
    | none => levelKeywordHit rest s

/-- Leftmost `<(\d+)>` occurrence: since greedy `\d+` must be followed by
`>`, and any shorter run is followed by a digit, the capture is exactly a
maximal digit run delimited by `<` and `>`. -/
def angleNumAux (s : List Char) : Option Nat :=
  match s with
  | [] => none
  | c :: rest =>
    if c = '<' then
      let ds := rest.takeWhile Char.isDigit
      match ds, rest.dropWhile Char.isDigit with
      | _ :: _, '>' :: _ => some (strToNat (String.mk ds))
      | _, _ => angleNumAux rest
    else angleNumAux rest

/-- Exact (case-sensitive) prefix test. -/
def startsLit (lit s : List Char) : Bool :=
  match lit, s with
  | [], _ => true
  | l :: ls, c :: cs => c = l && startsLit ls cs
  | _ :: _, [] => false

/-- Python `sub in s` substring containment. -/
def containsSub (s sub : List Char) : Bool :=
  startsLit sub s ||
    match s with
    | [] => false
    | _ :: cs => containsSub cs sub

/-- The numeric `severity_map` of `extract_log_level`. -/
def severity_map : List (Nat × String) := [
  (0, "EMERGENCY"), (1, "ALERT"), (2, "CRITICAL"), (3, "ERROR"),
  (4, "WARN"), (5, "NOTICE"), (6, "INFO"), (7, "DEBUG")]

/-- The `dict.get` over `severity_map`. -/
def nlookupD (d : List (Nat × String)) (k : Nat) (dflt : String) : String :=
  match d with
  | [] => dflt
  | (k0, v) :: rest => if k0 = k then v else nlookupD rest k dflt

/-- The `extract_log_level(message, default_level)`:
explicit keyword (priority classes, first hit wins), then `<N>` syslog
priority via `N % 8`, then the heuristic substring scan, else the
default. -/
def extract_log_level (message : String) (default_level : String) : String :=
  let s := message.toList
  match levelKeywordHit LEVEL_CLASSES s with
  | some w => slookupD LEVEL_MAP (pyUpper w) default_level
  | none =>
    match angleNumAux s with
    | some n => nlookupD severity_map (n % 8) default_level
    | none =>
      let mu := (pyUpper message).toList
      if ["FAIL", "ERROR", "EXCEPTION", "CRASH"].any (fun w => containsSub mu w.toList) then "ERROR"
      else if ["WARN", "ALERT", "DENY", "BLOCK"].any (fun w => containsSub mu w.toList) then "WARN"
      else if ["DEBUG", "TRACE"].any (fun w => containsSub mu w.toList) then "DEBUG"
      else default_level

example : extract_log_level "disk error" "INFO" = "ERROR" := by decide

example : extract_log_level "machine <13> went away" "INFO" = "NOTICE" := by decide

example : extract_log_level "access deny for user" "INFO" = "WARN" := by decide

example : extract_log_level "connect 1.2.3.4 to 5.6.7.8" "INFO" = "INFO" := by decide

example : (extract_network_info "connect 1.2.3.4 to 5.6.7.8") =
  [("ip_addresses", JVal.arr [JVal.str "1.2.3.4", JVal.str "5.6.7.8"]),
   ("src_ip", JVal.str "1.2.3.4"), ("dst_ip", JVal.str "5.6.7.8")] := rfl

/-! ### `parse_enhanced_log_line` (`api/main.py` lines 489-590)

The function body is one big `try`.  It is modelled in two stages over
`Except Unit`: `stage1` is the JSON / registry classification (lines
498-562) and `stage2` the message-level augmentation (lines 564-586);
a raised exception anywhere yields the bare fallback entry of line 590.
The entry fields no claim observes (`timestamp`, `source`,
`parsed_fields`, `metadata`) are elided; their computation cannot raise
except for the `fromisoformat` call, which is kept as the `isoOk`
validation. -/

/-- Python `str.strip()`. -/
def pyStrip (s : String) : String :=
  String.mk (((s.toList.dropWhile spaceChar).reverse.dropWhile spaceChar).reverse)

/-- Consume exactly `n` digits. -/
def chompDigits (n : Nat) (s : List Char) : Option (List Char) :=
  match n, s with
  | 0, s => some s
  | n + 1, c :: rest => if c.isDigit then chompDigits n rest else none
  | _ + 1, [] => none

/-- Consume one expected character. -/
def chompChar (ch : Char) (s : List Char) : Option (List Char) :=
  match s with
  | c :: rest => if c = ch then some rest else none
  | [] => none

/-- The `±HH:MM` offset tail (or nothing) of an ISO timestamp. -/
def isoOffsetOk (s : List Char) : Bool :=
  match s with
  | [] => true
  | c :: rest =>
    if c = '+' || c = '-' then
      match chompDigits 2 rest with
      | some r1 =>
        match chompChar ':' r1 with
        | some r2 => chompDigits 2 r2 = some []
        | none => false
      | none => false
    else false

/-- The `HH:MM[:SS[.ffffff]]` time part of an ISO timestamp. -/
def isoTimeOk (s : List Char) : Bool :=
  match chompDigits 2 s with
  | none => false
  | some r1 =>
    match chompChar ':' r1 with
    | none => false
    | some r2 =>
      match chompDigits 2 r2 with
      | none => false
      | some r3 =>
        match r3 with
        | ':' :: r4 =>
          match chompDigits 2 r4 with
          | none => false
          | some r5 =>
            match r5 with
            | '.' :: r6 =>
              r6.takeWhile Char.isDigit ≠ [] && isoOffsetOk (r6.dropWhile Char.isDigit)
            | _ => isoOffsetOk r5
        | _ => isoOffsetOk r3

/-- Model of `datetime.fromisoformat` acceptance, for the canonical
`YYYY-MM-DD[THH:MM[:SS[.ffffff]]][+HH:MM]` shapes (`T` or space
separator).  No claim depends on the exact accepted language, only on
the fact that rejection raises out of the JSON branch. -/
def isoOk (s : String) : Bool :=
  match chompDigits 4 s.toList with
  | none => false
  | some r1 =>
    match chompChar '-' r1 with
    | none => false
    | some r2 =>
      match chompDigits 2 r2 with
      | none => false
      | some r3 =>
        match chompChar '-' r3 with
        | none => false
        | some r4 =>
          match chompDigits 2 r4 with
          | none => false
          | some r5 =>
            match r5 with
            | [] => true
            | c :: rest => (c = 'T' || c = ' ') && isoTimeOk rest

/-- The `ts_str.replace('Z', '+00:00')`. -/
def tsReplaceZ (s : String) : String :=
  String.mk (s.toList.foldr
    (fun c acc => if c = 'Z' then '+' :: '0' :: '0' :: ':' :: '0' :: '0' :: acc else c :: acc) [])

/-- The `PROTOCOL_MAP` (`api/main.py` lines 90-93). -/
def PROTOCOL_MAP : List (String × String) := [
  ("1", "ICMP"), ("6", "TCP"), ("17", "UDP"), ("47", "GRE"), ("50", "ESP"),
  ("51", "AH"), ("58", "ICMPv6"), ("89", "OSPF"), ("132", "SCTP")]

/-- The intermediate state after classification, before message-level
augmentation. -/
structure PreEntry where
  log_type : String
  level : String
  message : JVal
  network_info : List (String × JVal)

/-- The modelled fields of `EnhancedLogEntry`. -/
structure EnhancedLogEntry where
  message : String
  level : String
  log_type : Option String
  network_info : List (String × JVal)
deriving Repr

/-- The JSON-branch network fields. -/
def networkFieldsJson : List String :=
  ["src_ip", "dst_ip", "src_port", "dst_port", "protocol", "ip_address"]

/-- The structured-branch network fields. -/
def networkFieldsStructured : List String :=
  ["src_ip", "dst_ip", "src_port", "dst_port", "protocol", "remote_addr"]

/-- Whether the JSON branch timestamp handling (lines 515-524) completes
without raising: a string `timestamp` (else `time`) must survive
`fromisoformat` after the `Z` rewrite; non-string values are skipped by
the `isinstance` guard. -/
def jsonTsOk (kvs : List (String × JVal)) : Bool :=
  match dlookup kvs "timestamp" with
  | some (JVal.str ts) => isoOk (tsReplaceZ ts)
  | some _ => true
  | none =>
    match dlookup kvs "time" with
    | some (JVal.str ts) => isoOk (tsReplaceZ ts)
    | some _ => true
    | none => true

/-- The network map built from the JSON fields (lines 527-531). -/
def jsonNet (kvs : List (String × JVal)) : List (String × JVal) :=
  networkFieldsJson.foldl (fun acc f =>
    match dlookup kvs f with
    | some v => dinsert acc f v
    | none => acc) []

/-- The JSON branch (lines 504-535).  Errors are the exceptions other
than `JSONDecodeError` that escape to the outer handler: `.upper()` on a
non-string `level`/`severity`, and `fromisoformat` on an unparseable
`timestamp`/`time` string. -/
def jsonPre (line : String) (kvs : List (String × JVal)) : Except Unit PreEntry :=
  let message := (dlookup kvs "message").getD ((dlookup kvs "msg").getD (JVal.str line))
  match (dlookup kvs "level").getD ((dlookup kvs "severity").getD (JVal.str "INFO")) with
  | JVal.str lv =>
    if jsonTsOk kvs then
      Except.ok { log_type := "json", level := pyUpper lv, message := message,
                  network_info := jsonNet kvs }
    else Except.error ()
  | _ => Except.error ()

/-- The registry branch (lines 537-562).  A `level` key whose `groupdict`
value is `None` cannot arise (the `level` groups of `windows_event` and
`docker` are mandatory, and `level_map` entries always write a string),
so the value default here is unreachable. -/
def structuredFromGd (line : String) (gd : PData) : PreEntry :=
  if gd.isEmpty then
    { log_type := "unknown", level := "INFO", message := JVal.str (pyStrip line), network_info := [] }
  else
    { log_type := (pdGet gd "log_type").getD "structured",
      level := if pdHasKey gd "level" then (pdGet gd "level").getD "INFO" else "INFO",
      message := if pdHasKey gd "message" then
          (match pdGet gd "message" with
           | some s => JVal.str s
           | none => JVal.null)
        else JVal.str (pyStrip line),
      network_info := networkFieldsStructured.foldl (fun acc f =>
        if pdHasKey gd f then
          dinsert acc (if f = "remote_addr" then "src_ip" else f)
            (match pdGet gd f with
             | some s => JVal.str s
             | none => JVal.null)
        else acc) [] }

/-- The registry branch applied to the current line. -/
def structuredPre (line : String) : PreEntry :=
  structuredFromGd line (parse_structured_log line)

/-- A successfully parsed JSON *object* (a parse producing anything else
does not arise from a line starting with `{`). -/
def jsonObjOf (v : Option JVal) : Option (List (String × JVal)) :=
  match v with
  | some (JVal.obj kvs) => some kvs
  | _ => none

/-- Classification stage: JSON if the stripped line starts with `{` and
parses, else the registry; a failed JSON parse falls through to the
registry with the tag still `unknown`. -/
def stage1 (line : String) : Except Unit PreEntry :=
  if (pyStrip line).toList.head? = some lbrace then
    match jsonObjOf (jsonLoads line) with
    | some kvs => jsonPre line kvs
    | none => Except.ok (structuredPre line)
  else Except.ok (structuredPre line)

/-- Augmentation stage (lines 564-586): network info extracted from the
message is merged with `dict.update` (overwriting), the level is
re-extracted whenever it is `INFO`, and a purely numeric `protocol` is
mapped through `PROTOCOL_MAP`.  Errors: `re` on a non-string message,
and `.isdigit()` on a non-string (for example `None`) protocol value. -/
def stage2 (p : PreEntry) : Except Unit EnhancedLogEntry :=
  match p.message with
  | JVal.str m =>
    let net := pyUpdate p.network_info (extract_network_info m)
    let level := if p.level = "INFO" then extract_log_level m "INFO" else p.level
    match dlookup net "protocol" with
    | some (JVal.str s) =>
      Except.ok { message := m, level := level, log_type := some p.log_type,
                  network_info := if isDigitStr s then
                      dinsert net "protocol" (JVal.str (slookupD PROTOCOL_MAP s s))
                    else net }
    | some _ => Except.error ()
    | none =>
      Except.ok { message := m, level := level, log_type := some p.log_type, network_info := net }
  | _ => Except.error ()

/-- The `parse_enhanced_log_line`: `None` on a blank line, otherwise the
two-stage pipeline with the line-590 fallback entry on any exception. -/
def parse_enhanced_log_line (line : String) (source : String) : Option EnhancedLogEntry :=
  if pyStrip line = "" then none
  else some (match stage1 line >>= stage2 with
    | Except.ok e => e
    | Except.error _ =>
      { message := pyStrip line, level := "INFO", log_type := none, network_info := [] })

/-- The classification policy in isolation: the tag `stage1` computes. -/
def registryTag (line : String) : String :=
  match firstPatMatch LOG_PATTERNS line.toList with
  | some (e, _) => e.pname
  | none => "unknown"

/-- Tag of a line under the code's policy: JSON check first, then the
registry in declared order, else `unknown`. -/
def classifyTag (line : String) : String :=
  if (pyStrip line).toList.head? = some lbrace then
    match jsonObjOf (jsonLoads line) with
    | some _ => "json"
    | none => registryTag line
  else registryTag line

def exL1 : String := "\x7b\"src_ip\":\"10.0.0.1\",\"message\":\"connect 1.2.3.4 to 5.6.7.8\"\x7d"

def exL5 : String := "\x7b\"level\":\"info\",\"message\":\"disk error\"\x7d"

def exL2 : String := "Jul 10 12:00:01 router %SYS-5-CONFIG: configured"

example : (parse_enhanced_log_line exL1 "s").map EnhancedLogEntry.network_info =
  some [("src_ip", JVal.str "1.2.3.4"),
        ("ip_addresses", JVal.arr [JVal.str "1.2.3.4", JVal.str "5.6.7.8"]),
        ("dst_ip", JVal.str "5.6.7.8")] := rfl

example : (stage1 exL1).map PreEntry.network_info =
  Except.ok [("src_ip", JVal.str "10.0.0.1")] := rfl

example : (parse_enhanced_log_line exL5 "s").map EnhancedLogEntry.level = some "ERROR" := rfl

example : (stage1 exL5).map PreEntry.level = Except.ok "INFO" := rfl

example : classifyTag exL2 = "syslog" := rfl

example : (reMatch false ciscoRx exL2.toList).isSome = true := rfl

example : classifyTag exL1 = "json" := rfl

example : classifyTag "no format at all" = "unknown" := rfl

/-! ### Supporting lemmas -/

theorem hasKey_dinsert (d : List (String × JVal)) (k k2 : String) (v : JVal)
    (h : hasKey d k = true) : hasKey (dinsert d k2 v) k = true := by
  induction d with
  | nil => simp [hasKey] at h
  | cons hd tl ih =>
    obtain ⟨k0, v0⟩ := hd
    simp only [hasKey, Bool.or_eq_true, decide_eq_true_eq] at h
    by_cases hk : k0 = k2
    · simp only [dinsert, if_pos hk, hasKey, Bool.or_eq_true, decide_eq_true_eq]
      exact h
    · simp only [dinsert, if_neg hk, hasKey, Bool.or_eq_true, decide_eq_true_eq]
      rcases h with h | h
      · exact Or.inl h
      · exact Or.inr (ih h)

theorem hasKey_pyUpdate (d extra : List (String × JVal)) (k : String)
    (h : hasKey d k = true) : hasKey (pyUpdate d extra) k = true := by
  induction extra generalizing d with
  | nil => exact h
  | cons hd tl ih =>
    obtain ⟨k2, v⟩ := hd
    exact ih (dinsert d k2 v) (hasKey_dinsert d k k2 v h)

theorem firstPatMatch_mem {pats : List PatEntry} {line : List Char} {e : PatEntry} {caps : Caps}
    (h : firstPatMatch pats line = some (e, caps)) : e ∈ pats := by
  induction pats with
  | nil => simp [firstPatMatch] at h
  | cons e0 rest ih =>
    unfold firstPatMatch at h
    cases hm : reMatch false e0.rx line with
    | some res =>
      rw [hm] at h
      obtain ⟨rfl, -⟩ : e0 = e ∧ res.1 = caps := by
        cases res; simpa [Prod.ext_iff] using h
      exact List.mem_cons_self e0 rest
    | none =>
      rw [hm] at h
      exact List.mem_cons_of_mem e0 (ih h)

theorem pdGet_after_names (names : List String) (f : String → Option String)
    (k : String) (v : Option String) (zs : PData) (hn : names.all (fun n => n != k) = true) :
    pdGet (names.map (fun n => (n, f n)) ++ (k, v) :: zs) k = v := by
  induction names with
  | nil => simp [pdGet]
  | cons n rest ih =>
    simp only [List.all_cons, Bool.and_eq_true, bne_iff_ne, ne_eq] at hn
    simp only [List.map_cons, List.cons_append, pdGet]
    rw [if_neg hn.1]
    exact ih hn.2

theorem isEmpty_names_append (names : List String) (f : String → Option String)
    (k : String) (v : Option String) (zs : PData) :
    (names.map (fun n => (n, f n)) ++ (k, v) :: zs).isEmpty = false := by
  cases names <;> simp [List.isEmpty]

theorem psGd_shape (e : PatEntry) (caps : Caps) :
    ∃ zs : PData, psGd e caps =
      e.groupNames.map (fun n => (n, capGet caps n)) ++ ("log_type", some e.pname) :: zs := by
  unfold psGd
  cases hlm : e.levelMap with
  | none => exact ⟨[], by simp⟩
  | some lm =>
    dsimp only
    split
    · exact ⟨[("level", some (levelMapGet lm
        (pdGet (e.groupNames.map (fun n => (n, capGet caps n)) ++
          [("log_type", some e.pname)]) "severity")))], by simp⟩
    · split
      · exact ⟨[("level", some (levelMapGet lm
          (pdGet (e.groupNames.map (fun n => (n, capGet caps n)) ++
            [("log_type", some e.pname)]) "action")))], by simp⟩
      · exact ⟨[], by simp⟩

theorem structuredPre_log_type (line : String) :
    (structuredPre line).log_type = registryTag line := by
  unfold structuredPre registryTag parse_structured_log
  cases h : firstPatMatch LOG_PATTERNS line.toList with
  | none => simp [structuredFromGd]
  | some ec =>
    obtain ⟨e, caps⟩ := ec
    have he : e ∈ LOG_PATTERNS := firstPatMatch_mem h
    have hall : LOG_PATTERNS.all
        (fun en => en.groupNames.all (fun n => n != "log_type")) = true := by decide
    have hn : e.groupNames.all (fun n => n != "log_type") = true :=
      List.all_eq_true.mp hall e he
    obtain ⟨zs, hgd⟩ := psGd_shape e caps
    dsimp only
    rw [hgd]
    unfold structuredFromGd
    rw [isEmpty_names_append e.groupNames (fun n => capGet caps n) "log_type" (some e.pname) zs]
    simp only [Bool.false_eq_true, if_false]
    rw [pdGet_after_names e.groupNames (fun n => capGet caps n) "log_type" (some e.pname) zs hn]
    rfl

theorem jsonPre_log_type {line : String} {kvs : List (String × JVal)} {p : PreEntry}
    (h : jsonPre line kvs = Except.ok p) : p.log_type = "json" := by
  unfold jsonPre at h
  split at h
  · split at h
    · cases h
      rfl
    · cases h
  · cases h

theorem stage1_log_type (line : String) (p : PreEntry) (h : stage1 line = Except.ok p) :
    p.log_type = classifyTag line := by
  unfold stage1 at h
  unfold classifyTag
  by_cases hb : (pyStrip line).toList.head? = some lbrace
  · rw [if_pos hb] at h
    rw [if_pos hb]
    cases hj : jsonObjOf (jsonLoads line) with
    | some kvs =>
      rw [hj] at h
      exact jsonPre_log_type h
    | none =>
      rw [hj] at h
      cases h
      exact structuredPre_log_type line
  · rw [if_neg hb] at h
    rw [if_neg hb]
    cases h
    exact structuredPre_log_type line

/-! ### Claims C1, C2, C5 -/

/-- C1 (amended): for every record, the key set of the assembled network
map is a superset of the key set of the map derived from the structured
captures alone (`dict.update` only adds or overwrites keys, never
removes them).  The value-level superset property of the original claim
is refuted by `C1_counterexample`. -/
theorem C1_network_keys_monotone (line : String) (p : PreEntry) (e : EnhancedLogEntry)
    (h1 : stage1 line = Except.ok p) (h2 : stage2 p = Except.ok e) (k : String)
    (hk : hasKey p.network_info k = true) : hasKey e.network_info k = true := by
  clear h1
  unfold stage2 at h2
  cases hm : p.message with
  | str m =>
    rw [hm] at h2
    have hnet : hasKey (pyUpdate p.network_info (extract_network_info m)) k = true :=
      hasKey_pyUpdate _ _ _ hk
    dsimp only at h2
    split at h2
    · cases h2
      dsimp only
      split
      · exact hasKey_dinsert _ _ _ _ hnet
      · exact hnet
    · cases h2
    · cases h2
      exact hnet
  | num n => rw [hm] at h2; cases h2
  | bool b => rw [hm] at h2; cases h2
  | null => rw [hm] at h2; cases h2
  | arr xs => rw [hm] at h2; cases h2
  | obj kvs => rw [hm] at h2; cases h2

theorem C1_network_keys_monotone_witness :
    hasKey [("src_ip", JVal.str "1.2.3.4"),
            ("ip_addresses", JVal.arr [JVal.str "1.2.3.4", JVal.str "5.6.7.8"]),
            ("dst_ip", JVal.str "5.6.7.8")] "src_ip" = true :=
  C1_network_keys_monotone exL1
    { log_type := "json", level := "INFO",
      message := JVal.str "connect 1.2.3.4 to 5.6.7.8",
      network_info := [("src_ip", JVal.str "10.0.0.1")] }
    { message := "connect 1.2.3.4 to 5.6.7.8", level := "INFO", log_type := some "json",
      network_info := [("src_ip", JVal.str "1.2.3.4"),
        ("ip_addresses", JVal.arr [JVal.str "1.2.3.4", JVal.str "5.6.7.8"]),
        ("dst_ip", JVal.str "5.6.7.8")] }
    rfl rfl "src_ip" rfl

/-- C1 (counterexample): for the JSON line
`{"src_ip":"10.0.0.1","message":"connect 1.2.3.4 to 5.6.7.8"}` the
structured captures carry `src_ip = 10.0.0.1`, but the assembled record
carries `src_ip = 1.2.3.4`: `network_info.update(...)` overwrote a key
already present from the captures, so the assembled map is not a
superset of the captures map. -/
theorem C1_counterexample :
    (stage1 exL1).map (fun p => dlookup p.network_info "src_ip") =
      Except.ok (some (JVal.str "10.0.0.1")) ∧
    (parse_enhanced_log_line exL1 "s").map (fun e => dlookup e.network_info "src_ip") =
      some (some (JVal.str "1.2.3.4")) :=
  ⟨rfl, rfl⟩

/-- C2 (amended): classification is JSON-object first, then the first
matching registry pattern in *declared* order, else `unknown` — but the
declared order is `syslog, apache_access, nginx_access, firewall,
cisco_syslog, windows_event, json_structured, docker`: `syslog` is tried
*before* `cisco_syslog` (the original claim's order is refuted by
`C2_counterexample`). -/
theorem C2_classification_policy :
    LOG_PATTERNS.map PatEntry.pname =
      ["syslog", "apache_access", "nginx_access", "firewall", "cisco_syslog",
       "windows_event", "json_structured", "docker"] ∧
    ∀ line p, stage1 line = Except.ok p → p.log_type = classifyTag line :=
  ⟨by decide, fun line p h => stage1_log_type line p h⟩

theorem C2_classification_policy_witness :
    (structuredPre exL2).log_type = classifyTag exL2 :=
  C2_classification_policy.2 exL2 (structuredPre exL2) rfl

/-- C2 (counterexample): the line
`Jul 10 12:00:01 router %SYS-5-CONFIG: configured` matches the
`cisco_syslog` pattern, yet classification tags it `syslog`, because the
registry declares `syslog` first — refuting "cisco_syslog is tried
before syslog". -/
theorem C2_counterexample :
    (reMatch false ciscoRx exL2.toList).isSome = true ∧
    classifyTag exL2 = "syslog" ∧
    (parse_enhanced_log_line exL2 "s").map EnhancedLogEntry.log_type = some (some "syslog") :=
  ⟨rfl, rfl, rfl⟩

/-- C5 (amended): an explicitly captured severity is kept only when it
differs from `INFO`; when the captured severity is `INFO` (or none was
captured, which is indistinguishable), regex extraction on the message is
applied and may override it.  The original "keeps severity INFO" claim is
refuted by `C5_counterexample`. -/
theorem C5_level_precedence (line : String) (p : PreEntry) (e : EnhancedLogEntry)
    (h1 : stage1 line = Except.ok p) (h2 : stage2 p = Except.ok e) :
    e.level = if p.level = "INFO" then extract_log_level e.message "INFO" else p.level := by
  clear h1
  unfold stage2 at h2
  cases hm : p.message with
  | str m =>
    rw [hm] at h2
    dsimp only at h2
    split at h2
    · cases h2
      rfl
    · cases h2
    · cases h2
      rfl
  | num n => rw [hm] at h2; cases h2
  | bool b => rw [hm] at h2; cases h2
  | null => rw [hm] at h2; cases h2
  | arr xs => rw [hm] at h2; cases h2
  | obj kvs => rw [hm] at h2; cases h2

def exC5w : String := "\x7b\"level\":\"error\",\"message\":\"all good\"\x7d"

theorem C5_level_precedence_witness :
    ({ message := "all good", level := "ERROR", log_type := some "json",
       network_info := [] } : EnhancedLogEntry).level =
      (if ("ERROR" : String) = "INFO" then extract_log_level "all good" "INFO" else "ERROR") :=
  C5_level_precedence exC5w
    { log_type := "json", level := "ERROR", message := JVal.str "all good", network_info := [] }
    { message := "all good", level := "ERROR", log_type := some "json", network_info := [] }
    rfl rfl

/-- C5 (counterexample): for `{"level":"info","message":"disk error"}`
the JSON capture explicitly assigns severity `INFO`, yet the stored
record's severity is `ERROR`: the code re-runs regex extraction whenever
the level equals `INFO`. -/
theorem C5_counterexample :
    (stage1 exL5).map PreEntry.level = Except.ok "INFO" ∧
    (parse_enhanced_log_line exL5 "s").map EnhancedLogEntry.level = some "ERROR" :=
  ⟨rfl, rfl⟩


/-! ### Claim C4 -/

theorem wordsHere_mem {ws : List String} {s : List Char} {w : String}
    (h : wordsHere ws s = some w) : w ∈ ws := by
  induction ws with
  | nil => simp [wordsHere] at h
  | cons w0 rest ih =>
    unfold wordsHere at h
    cases hm : matchCI w0.toList s with
    | some restS =>
      rw [hm] at h
      dsimp only at h
      split at h
      · cases h
        exact List.mem_cons_self _ _
      · exact List.mem_cons_of_mem _ (ih h)
    | none =>
      rw [hm] at h
      exact List.mem_cons_of_mem _ (ih h)

theorem searchHere_mem {ws : List String} {s : List Char} {prev : Option Char} {w : String}
    (h : searchHere ws s prev = some w) : w ∈ ws := by
  unfold searchHere at h
  dsimp only at h
  split at h
  · exact wordsHere_mem h
  · cases h

theorem searchWordAux_mem {ws : List String} {s : List Char} {prev : Option Char} {w : String}
    (h : searchWordAux ws s prev = some w) : w ∈ ws := by
  induction s generalizing prev with
  | nil => exact searchHere_mem h
  | cons c cs ih =>
    rw [searchWordAux] at h
    cases hm : searchHere ws (c :: cs) prev with
    | some w0 =>
      rw [hm] at h
      cases h
      exact searchHere_mem hm
    | none =>
      rw [hm] at h
      exact ih h

/-- The keyword table grouped as the claim describes it: the priority
classes of `LEVEL_PATTERNS` paired with the severity every member of the
class maps to under `LEVEL_MAP`. -/
def SEVERITY_CLASSES : List (List String × String) := [
  (["EMERGENCY", "EMERG", "PANIC"], "EMERGENCY"),
  (["ALERT"], "ALERT"),
  (["CRITICAL", "CRIT", "FATAL"], "CRITICAL"),
  (["ERROR", "ERR", "FAIL", "FAILED"], "ERROR"),
  (["WARNING", "WARN", "NOTICE"], "WARN"),
  (["INFO", "INFORMATION"], "INFO"),
  (["DEBUG", "TRACE"], "DEBUG")]

theorem LEVEL_CLASSES_eq : LEVEL_CLASSES = SEVERITY_CLASSES.map Prod.fst := by decide

theorem levelCascade (cls : List (List String × String)) (s : List Char) (d other : String)
    (hv : ∀ cl ∈ cls, ∀ w, searchWordAux cl.1 s none = some w →
      slookupD LEVEL_MAP (pyUpper w) d = cl.2) :
    (match levelKeywordHit (cls.map Prod.fst) s with
     | some w => slookupD LEVEL_MAP (pyUpper w) d
     | none => other) =
    (match cls.find? (fun cl => (searchWordAux cl.1 s none).isSome) with
     | some cl => cl.2
     | none => other) := by
  induction cls with
  | nil => rfl
  | cons cl rest ih =>
    simp only [List.map_cons, levelKeywordHit, List.find?]
    cases hw : searchWordAux cl.1 s none with
    | some w =>
      simp only [hw, Option.isSome_some]
      exact hv cl (List.mem_cons_self _ _) w hw
    | none =>
      simp only [hw, Option.isSome_none]
      exact ih (fun cl' h' w hw' => hv cl' (List.mem_cons_of_mem _ h') w hw')

/-- The severity extraction procedure as the claim states it: the
whole-word keyword scan over the priority classes (first class with a
hit wins, yielding the class severity), failing that the `<N>` syslog
priority via `N mod 8`, failing that the heuristic substring scan, else
the default. -/
def specSeverity (message : String) (dflt : String) : String :=
  let s := message.toList
  match SEVERITY_CLASSES.find? (fun cl => (searchWordAux cl.1 s none).isSome) with
  | some cl => cl.2
  | none =>
    match angleNumAux s with
    | some n => nlookupD severity_map (n % 8) dflt
    | none =>
      let mu := (pyUpper message).toList
      if ["FAIL", "ERROR", "EXCEPTION", "CRASH"].any (fun w => containsSub mu w.toList) then "ERROR"
      else if ["WARN", "ALERT", "DENY", "BLOCK"].any (fun w => containsSub mu w.toList) then "WARN"
      else if ["DEBUG", "TRACE"].any (fun w => containsSub mu w.toList) then "DEBUG"
      else dflt

/-- C4: `extract_log_level` implements exactly the claimed procedure:
keyword classes in priority order EMERGENCY/PANIC > ALERT >
CRITICAL/FATAL > ERROR/FAIL > WARN/NOTICE > INFO > DEBUG/TRACE (the
code's keyword table additionally places the abbreviations EMERG, CRIT,
ERR, FAILED, WARNING, INFORMATION, TRACE in their classes), first hit
wins, case-insensitively on whole words; failing that a `<N>` priority
mapped via `N mod 8`; failing that the heuristic substring scan
(FAIL/ERROR/EXCEPTION/CRASH, then WARN/ALERT/DENY/BLOCK, then
DEBUG/TRACE); otherwise the default, which is `INFO` at both call
sites. -/
theorem C4_severity_extraction_order (m d : String) :
    extract_log_level m d = specSeverity m d := by
  have hv : ∀ cl ∈ SEVERITY_CLASSES, ∀ w, searchWordAux cl.1 m.toList none = some w →
      slookupD LEVEL_MAP (pyUpper w) d = cl.2 := by
    intro cl hcl w hw
    have hmem : w ∈ cl.1 := searchWordAux_mem hw
    clear hw
    fin_cases hcl <;> (fin_cases hmem <;> rfl)
  simp only [extract_log_level, specSeverity]
  rw [LEVEL_CLASSES_eq]
  exact levelCascade SEVERITY_CLASSES m.toList d _ hv

/-! ### Claim C3 — the template upsert (`api/main.py` lines 455-476)

The storage adapter is MongoDB; `update_one` is modelled per the MongoDB
update-operator semantics.  MongoDB statically validates the update
document: two update operators must not target the same field path
(error 40, `ConflictingUpdateOperators`, "Updating the path 'count'
would create a conflict at 'count'"); the validation applies whether or
not the upsert would insert.  The source's update document uses
`$set {template, last_seen, cluster_size}`,
`$setOnInsert {first_seen, count: 0}` and `$inc {count: 1}`. -/

/-- A stored template document. -/
structure TemplateDoc where
  template : String
  first_seen : Nat
  last_seen : Nat
  cluster_size : Nat
  count : Nat
deriving Repr, DecidableEq

/-- The template collection keyed by `template_id`. -/
abbrev TemplateStore := List (String × TemplateDoc)

/-- Field paths of the `$set` operator (lines 461-465). -/
def upsertSetPaths : List String := ["template", "last_seen", "cluster_size"]

/-- Field paths of the `$setOnInsert` operator (lines 466-469). -/
def upsertSetOnInsertPaths : List String := ["first_seen", "count"]

/-- Field paths of the `$inc` operator (line 470). -/
def upsertIncPaths : List String := ["count"]

/-- Whether two operators of the update document target a common path. -/
def mongoUpdateConflict : Bool :=
  (upsertSetPaths ++ upsertSetOnInsertPaths).any (fun p => upsertIncPaths.contains p) ||
    upsertSetPaths.any (fun p => upsertSetOnInsertPaths.contains p)

/-- Association lookup in the template store. -/
def tlookup (store : TemplateStore) (tid : String) : Option TemplateDoc :=
  match store with
  | [] => none
  | (t, doc) :: rest => if t = tid then some doc else tlookup rest tid

/-- Overwrite-or-append into the template store. -/
def tset (store : TemplateStore) (tid : String) (doc : TemplateDoc) : TemplateStore :=
  match store with
  | [] => [(tid, doc)]
  | (t, d0) :: rest => if t = tid then (t, doc) :: rest else (t, d0) :: tset rest tid doc

/-- The `templates_collection.update_one({"template_id": tid}, {...}, upsert=True)`
with the source's operator document: conflict validation first; were the
document valid, a missing id would insert with `$setOnInsert` then
`$inc` (`count = 0 + 1`), and an existing id would apply `$set` and
`$inc`. -/
def upsert_template (store : TemplateStore) (tid tmpl : String) (ts csize : Nat) :
    Except String TemplateStore :=
  if mongoUpdateConflict then Except.error "ConflictingUpdateOperators"
  else
    match tlookup store tid with
    | none =>
      Except.ok (tset store tid
        { template := tmpl, first_seen := ts, last_seen := ts, cluster_size := csize,
          count := 0 + 1 })
    | some doc =>
      Except.ok (tset store tid
        { doc with template := tmpl, last_seen := ts, cluster_size := csize,
                   count := doc.count + 1 })

/-- The template-statistics step of `process_log_with_enhanced_parsing`:
the update sits in a `try` whose handler only logs a warning, so a
raising update leaves the store unchanged. -/
def processTemplateStats (store : TemplateStore) (tid tmpl : String) (ts csize : Nat) :
    TemplateStore :=
  match upsert_template store tid tmpl ts csize with
  | Except.ok s => s
  | Except.error _ => store

/-- C3 (code bug): the update document places `count` in both
`$setOnInsert` and `$inc`, which MongoDB rejects as conflicting update
operators, so the upsert always raises; the exception is swallowed by
the surrounding `try`, and no template document is ever created or
updated.  Evaluated at the failing input: after five upserts of template
id `42` at timestamp 7 the store is still empty — against the claim that
n upserts yield `count` incremented by n with `first_seen`/`last_seen`
set. -/
theorem C3_code_bug :
    mongoUpdateConflict = true ∧
    upsert_template [] "42" "User <*> logged in" 7 1 =
      Except.error "ConflictingUpdateOperators" ∧
    Nat.iterate (fun st => processTemplateStats st "42" "User <*> logged in" 7 1) 5 [] = [] ∧
    tlookup (Nat.iterate (fun st => processTemplateStats st "42" "User <*> logged in" 7 1) 5 [])
      "42" = none := by
  refine ⟨rfl, rfl, rfl, rfl⟩

/-! ### Claim C6 — `detect_volume_anomalies` (`anomaly_detector.py` lines 90-132)

Floats are idealised over `ℚ`.  Record timestamps are modelled as hour
numbers; `resample('1H').size()` is `hourlyCounts` (empty intermediate
hours included).  `rolling(window=w)` has `min_periods = w`, so the
first `w - 1` buckets give `NaN` z-scores, and `abs(NaN) > 3` is false:
those buckets are skipped.  `rolling(...).std()` is the sample standard
deviation (`ddof = 1`).  The comparison `|z| > th` with
`z = d / (std + 1e-6)` is computed by the decidable `zGT`, proved
faithful to the real-valued formula in `zGT_iff`. -/

/-- The `1e-6`. -/
def eps6 : ℚ := 1 / 1000000

/-- Sum of a list of rationals. -/
def qsum (l : List ℚ) : ℚ := l.foldr (· + ·) 0

/-- Mean of a list of rationals (0 for the empty list, which matches the
only use on possibly-empty lists, the error-rate baseline with a single
bucket). -/
def qmean (l : List ℚ) : ℚ := qsum l / l.length

/-- Sample variance (`ddof = 1`), used with windows of length ≥ 2. -/
def sampVar (l : List ℚ) : ℚ :=
  qsum (l.map (fun x => (x - qmean l) ^ 2)) / ((l.length : ℚ) - 1)

/-- Decidable form of `|d| / (sqrt v + 1e-6) > th`, for `0 ≤ v` and
`0 < th`: see `zGT_iff`. -/
def zGT (d v th : ℚ) : Bool :=
  decide (0 < |d| - th * eps6 ∧ (|d| - th * eps6) ^ 2 > th ^ 2 * v)

/-- Faithfulness of `zGT` to the source's z-score comparison over the
reals. -/
theorem zGT_iff (d v th : ℚ) (hv : 0 ≤ v) (hth : 0 < th) :
    zGT d v th = true ↔ |(d : ℝ)| / (Real.sqrt v + (eps6 : ℝ)) > th := by
  have hvR : (0 : ℝ) ≤ (v : ℝ) := by exact_mod_cast hv
  have hthR : (0 : ℝ) < (th : ℝ) := by exact_mod_cast hth
  have hs : (0 : ℝ) ≤ Real.sqrt v := Real.sqrt_nonneg _
  have hs2 : Real.sqrt v ^ 2 = (v : ℝ) := Real.sq_sqrt hvR
  have heps : (0 : ℝ) < (eps6 : ℝ) := by norm_num [eps6]
  have hden : (0 : ℝ) < Real.sqrt v + (eps6 : ℝ) := by linarith
  rw [gt_iff_lt, lt_div_iff₀ hden]
  unfold zGT
  rw [decide_eq_true_eq]
  constructor
  · rintro ⟨h1, h2⟩
    have h1R : (0 : ℝ) < |(d : ℝ)| - th * eps6 := by
      have := h1
      rw [← Rat.cast_abs (K := ℝ)] at *
      push_cast
      exact_mod_cast by exact_mod_cast h1
    have h2R : ((th : ℝ) ^ 2) * v < (|(d : ℝ)| - th * eps6) ^ 2 := by
      rw [← Rat.cast_abs (K := ℝ)]
      exact_mod_cast h2
    nlinarith [hs, hs2, h1R, h2R, abs_nonneg (d : ℝ)]
  · intro h
    have h1R : (th : ℝ) * (Real.sqrt v + eps6) < |(d : ℝ)| := h
    have hb : (0 : ℝ) ≤ (th : ℝ) * Real.sqrt v := mul_nonneg hthR.le hs
    have c1 : (0 : ℝ) < |(d : ℝ)| - th * eps6 := by nlinarith
    have key : (0 : ℝ) <
        ((|(d : ℝ)| - th * eps6) - th * Real.sqrt v) *
          ((|(d : ℝ)| - th * eps6) + th * Real.sqrt v) :=
      mul_pos (by nlinarith) (by nlinarith)
    have c2 : ((th : ℝ) ^ 2) * v < (|(d : ℝ)| - th * eps6) ^ 2 := by nlinarith [key, hs2]
    constructor
    · exact_mod_cast by rw [← Rat.cast_abs (K := ℝ)] at c1; exact_mod_cast c1
    · exact_mod_cast by rw [← Rat.cast_abs (K := ℝ)] at c2; exact_mod_cast c2

/-- One reported volume anomaly (the fields the claim speaks about). -/
structure VolAnom where
  bucket : Nat
  kind : String
  severity : String
  log_count : Nat
deriving Repr, DecidableEq

/-- The `resample('1H').size()`: per-hour counts from the earliest to the
latest hour of the window, empty hours included as zero. -/
def hourlyCounts (hours : List Nat) : List Nat :=
  match hours.min?, hours.max? with
  | some lo, some hi => (List.range (hi - lo + 1)).map (fun i => hours.countP (fun h => h == lo + i))
  | _, _ => []

/-- The `detect_volume_anomalies`: needs ≥ 3 buckets; `w = min(24, N-1)`;
rolling mean / sample std over the `w` buckets ending at (and including)
the current one, undefined (`NaN`, hence no emission) for the first
`w - 1` buckets; emits one anomaly per bucket with `|z| > 3`, a
`VOLUME_SPIKE` for `z > 0` (equivalently `d > 0`, the denominator being
positive), severity `HIGH` for `|z| > 5` else `MEDIUM`. -/
def detect_volume_anomalies (hours : List Nat) : List VolAnom :=
  let b := hourlyCounts hours
  if b.length < 3 then []
  else
    let w := min 24 (b.length - 1)
    (List.range b.length).filterMap (fun i =>
      if i + 1 < w then none
      else
        let win := ((b.drop (i + 1 - w)).take w).map (fun n => (n : ℚ))
        let d := ((b.getD i 0 : ℚ)) - qmean win
        let v := sampVar win
        if zGT d v 3 then
          some { bucket := i,
                 kind := if 0 < d then "VOLUME_SPIKE" else "VOLUME_DROP",
                 severity := if zGT d v 5 then "HIGH" else "MEDIUM",
                 log_count := b.getD i 0 }
        else none)

/-- The volume detector as the claim words it: the window is the
`min(24, N-1)` buckets *before* the current one (the current bucket
excluded); everything else as in the code (buckets without a full prior
window are skipped, at least 3 buckets required). -/
def specVolume (hours : List Nat) : List VolAnom :=
  let b := hourlyCounts hours
  if b.length < 3 then []
  else
    let w := min 24 (b.length - 1)
    (List.range b.length).filterMap (fun i =>
      if i < w then none
      else
        let win := ((b.drop (i - w)).take w).map (fun n => (n : ℚ))
        let d := ((b.getD i 0 : ℚ)) - qmean win
        let v := sampVar win
        if zGT d v 3 then
          some { bucket := i,
                 kind := if 0 < d then "VOLUME_SPIKE" else "VOLUME_DROP",
                 severity := if zGT d v 5 then "HIGH" else "MEDIUM",
                 log_count := b.getD i 0 }
        else none)

/-- Ten records in each of hours 0, 1, 2 and 100 records in hour 3. -/
def volHours : List Nat :=
  List.replicate 10 0 ++ List.replicate 10 1 ++ List.replicate 10 2 ++ List.replicate 100 3

unseal Rat.add Rat.mul Rat.sub Rat.inv in
set_option maxRecDepth 8000 in
/-- C6 (counterexample): on hourly counts `[10, 10, 10, 100]` the claimed
prior-bucket window gives bucket 3 the baseline mean 10 / std 0, so
`z = 90 / 1e-6` demands a HIGH `VOLUME_SPIKE`; the code's pandas rolling
window *includes* the current bucket (mean 40, sample std `sqrt 2700`),
giving `z ≈ 1.15`, and nothing is emitted. -/
theorem C6_counterexample :
    detect_volume_anomalies volHours = [] ∧
    specVolume volHours =
      [{ bucket := 3, kind := "VOLUME_SPIKE", severity := "HIGH", log_count := 100 }] := by
  constructor
  · decide
  · decide

/-- The volume detector phrased with the trailing window written as "the
last `w` of the first `i + 1` buckets", used to state the amended
claim. -/
def amendedVolume (hours : List Nat) : List VolAnom :=
  let b := hourlyCounts hours
  if b.length < 3 then []
  else
    let w := min 24 (b.length - 1)
    (List.range b.length).filterMap (fun i =>
      if i + 1 < w then none
      else
        let win := ((b.take (i + 1)).drop (i + 1 - w)).map (fun n => (n : ℚ))
        let d := ((b.getD i 0 : ℚ)) - qmean win
        let v := sampVar win
        if zGT d v 3 then
          some { bucket := i,
                 kind := if 0 < d then "VOLUME_SPIKE" else "VOLUME_DROP",
                 severity := if zGT d v 5 then "HIGH" else "MEDIUM",
                 log_count := b.getD i 0 }
        else none)

/-- C6 (amended): the volume detector needs at least 3 hourly buckets,
uses `w = min(24, N-1)`, and the rolling window of a bucket *includes*
that bucket: it is the last `w` of the first `i+1` buckets (pandas
`rolling`), not the `w` prior buckets; buckets without a full window
(the first `w-1`) emit nothing; a triggering bucket emits exactly one
anomaly, `VOLUME_SPIKE`/`VOLUME_DROP` by the sign of `count - mean`,
severity `HIGH` iff `|z| > 5` else `MEDIUM`.  The original prior-bucket
window is refuted by `C6_counterexample`. -/
theorem C6_volume_window (hours : List Nat) :
    detect_volume_anomalies hours = amendedVolume hours := by
  unfold detect_volume_anomalies amendedVolume
  by_cases hlen : (hourlyCounts hours).length < 3
  · simp [hlen]
  · simp only [hlen, if_false]
    apply List.filterMap_congr
    intro i hi
    by_cases hw : i + 1 < min 24 ((hourlyCounts hours).length - 1)
    · simp [hw]
    · simp only [hw, if_false]
      have hwin : ((hourlyCounts hours).take (i + 1)).drop
            (i + 1 - min 24 ((hourlyCounts hours).length - 1)) =
          ((hourlyCounts hours).drop (i + 1 - min 24 ((hourlyCounts hours).length - 1))).take
            (min 24 ((hourlyCounts hours).length - 1)) := by
        rw [List.drop_take]
        congr 1
        omega
      rw [hwin]

/-! ### Claim C7 — `detect_error_rate_anomalies` (`anomaly_detector.py` lines 134-181)

Records are modelled as `(hour, level)` pairs.  The hour index of
`groupby([Grouper('1H'), 'level']).unstack` is taken as the hours
present in the window, ascending; the modelled windows (and the concrete
inputs below) have no empty gap hours, where pandas versions differ on
bin materialisation.  The error count of a bucket is the number of its
records with level in `error_levels`, the robust reading of
`df_hourly[error_levels].sum(axis=1)` (recent pandas raises a `KeyError`
when only some of the four columns exist; the concrete inputs below
contain all four levels, on which all pandas versions agree). -/

/-- The `error_levels` (line 142). -/
def error_levels : List String := ["ERROR", "CRITICAL", "FATAL", "WARN"]

/-- One reported error-rate anomaly. -/
structure ErAnom where
  hour : Nat
  severity : String
deriving Repr, DecidableEq

/-- The ascending list of hours present in the window. -/
def hoursOf (recs : List (Nat × String)) : List Nat :=
  match (recs.map Prod.fst).max? with
  | none => []
  | some hi => (List.range (hi + 1)).filter (fun h => recs.any (fun r => r.1 == h))

/-- Records in the bucket of hour `h`. -/
def bucketTotal (recs : List (Nat × String)) (h : Nat) : Nat :=
  recs.countP (fun r => r.1 == h)

/-- Error-level records in the bucket of hour `h`. -/
def bucketErrors (recs : List (Nat × String)) (h : Nat) : Nat :=
  recs.countP (fun r => r.1 == h && error_levels.contains r.2)

/-- The `error_rate = error_logs / (total_logs + 1e-6)` (line 155). -/
def bucketRate (recs : List (Nat × String)) (h : Nat) : ℚ :=
  (bucketErrors recs h : ℚ) / ((bucketTotal recs h : ℚ) + eps6)

/-- The `detect_error_rate_anomalies`: one global baseline
`error_rate[:-1].mean()` (the mean over all buckets but the last, 0 when
there is at most one bucket), then per bucket emit `HIGH_ERROR_RATE`
when `rate > 0.1` and `rate > baseline * 2`, severity `CRITICAL` when
`rate > 0.5` else `HIGH`. -/
def detect_error_rate_anomalies (recs : List (Nat × String)) : List ErAnom :=
  let hs := hoursOf recs
  let rates := hs.map (fun h => (h, bucketRate recs h))
  let baseline := if 1 < rates.length then qmean (rates.dropLast.map Prod.snd) else 0
  rates.filterMap (fun hr =>
    if hr.2 > (1 / 10 : ℚ) ∧ hr.2 > baseline * 2 then
      some { hour := hr.1, severity := if hr.2 > (1 / 2 : ℚ) then "CRITICAL" else "HIGH" }
    else none)

/-- The error-rate detector as the claim words it: the rate of a bucket
is `errors / total` (no epsilon), and the baseline of each bucket is the
mean of the rates of the buckets strictly before it (0 for the first
bucket). -/
def specErrorRate (recs : List (Nat × String)) : List ErAnom :=
  let hs := hoursOf recs
  let rates := hs.map (fun h => (h, (bucketErrors recs h : ℚ) / (bucketTotal recs h : ℚ)))
  (List.range rates.length).filterMap (fun i =>
    let r := (rates.getD i (0, 0)).2
    let base := qmean ((rates.take i).map Prod.snd)
    if r > (1 / 10 : ℚ) ∧ r > base * 2 then
      some { hour := (rates.getD i (0, 0)).1, severity := if r > (1 / 2 : ℚ) then "CRITICAL" else "HIGH" }
    else none)

/-- Hour 0: one each of ERROR, CRITICAL, FATAL, WARN plus 16 INFO
(rate 0.2); hour 1: 10 INFO (rate 0). -/
def erRecs : List (Nat × String) :=
  [(0, "ERROR"), (0, "CRITICAL"), (0, "FATAL"), (0, "WARN")] ++
    List.replicate 16 (0, "INFO") ++ List.replicate 10 (1, "INFO")

unseal Rat.add Rat.mul Rat.sub Rat.inv in
set_option maxRecDepth 8000 in
/-- C7 (counterexample): with bucket rates (0.2, 0) the claim demands
`HIGH_ERROR_RATE` for bucket 0 (its rate 0.2 exceeds 0.1 and twice the
mean of its — zero — earlier buckets), but the code compares every
bucket against the single global baseline `error_rate[:-1].mean() = 0.2`
and `0.2 > 0.4` fails, so nothing is emitted. -/
theorem C7_counterexample :
    detect_error_rate_anomalies erRecs = [] ∧
    specErrorRate erRecs = [{ hour := 0, severity := "HIGH" }] := by
  constructor
  · decide
  · decide

/-- The error-rate detector with the baseline written as "the mean of
the rates of all buckets except the last", used to state the amended
claim. -/
def amendedErrorRate (recs : List (Nat × String)) : List ErAnom :=
  let hs := hoursOf recs
  let rates := hs.map (fun h => (h, bucketRate recs h))
  let baseline := if 1 < rates.length then
      qmean ((rates.take (rates.length - 1)).map Prod.snd)
    else 0
  rates.filterMap (fun hr =>
    if hr.2 > (1 / 10 : ℚ) ∧ hr.2 > baseline * 2 then
      some { hour := hr.1, severity := if hr.2 > (1 / 2 : ℚ) then "CRITICAL" else "HIGH" }
    else none)

/-- C7 (amended): per bucket,
`error_rate = |{ERROR, CRITICAL, FATAL, WARN} records| / (total + 1e-6)`
and `HIGH_ERROR_RATE` is emitted exactly when `rate > 0.10` and
`rate > 2 × baseline`, where the baseline is a single value — the mean
of the rates of all buckets except the last (0 with at most one bucket)
— used for every bucket, not the per-bucket mean of its earlier buckets;
severity `CRITICAL` when `rate > 0.5`, else `HIGH`.  The per-bucket
prior-mean reading is refuted by `C7_counterexample`. -/
theorem C7_error_rate_baseline (recs : List (Nat × String)) :
    detect_error_rate_anomalies recs = amendedErrorRate recs := by
  unfold detect_error_rate_anomalies amendedErrorRate
  simp only [List.dropLast_eq_take]

/-! ### Claim C8 — degraded template mining (`api/main.py` lines 388-487) -/

/-- A template id: the numeric cluster ids of the miner and the string
pseudo-ids of the degraded paths. -/
inductive TemplateId where
  | num (n : Nat)
  | str (s : String)
deriving Repr, DecidableEq

/-- The observable states of the Drain3 miner at one call:
`uninit` is `template_miner is None` (initialization failure, line 398);
`yields (some (cid, t, sz))` is a call from which a cluster id, template
and size were recovered (the result-shape probing of lines 416-444);
`yields none` is a call from which no cluster id could be recovered
(line 446); `throws` is an exception raised during mining, caught by the
handler at line 479. -/
inductive MinerState where
  | uninit
  | yields (r : Option (Nat × String × Nat))
  | throws
deriving Repr, DecidableEq

/-- The template info returned for one message. -/
structure TInfo where
  template_id : TemplateId
  template : String
  cluster_size : Nat
deriving Repr, DecidableEq

/-- The `process_log_with_enhanced_parsing` abstracted over the miner state;
`md5hex8` stands for `hashlib.md5(message.encode()).hexdigest()[:8]`.
The template-statistics update (lines 455-476, `processTemplateStats`)
cannot raise out of the function and does not affect the returned
info. -/
def process_log_with_enhanced_parsing (md5hex8 : String → String) (st : MinerState)
    (message : String) : TInfo :=
  match st with
  | MinerState.uninit =>
    { template_id := TemplateId.str ("fallback_" ++ md5hex8 message),
      template := message, cluster_size := 1 }
  | MinerState.yields (some (cid, t, sz)) =>
    { template_id := TemplateId.num cid, template := t, cluster_size := sz }
  | MinerState.yields none =>
    { template_id := TemplateId.str ("tmpl_" ++ md5hex8 message),
      template := message, cluster_size := 1 }
  | MinerState.throws =>
    { template_id := TemplateId.str ("error_" ++ md5hex8 message),
      template := message, cluster_size := 1 }

/-! ### Claim C10 — the upload loop (`api/main.py` lines 658-674) -/

/-- A record persisted by the upload loop, tagged with its originating
line. -/
structure StoredRec where
  line : String
  entry : EnhancedLogEntry
  tinfo : TInfo

/-- Python `content.split('\n')`: every newline separates; n newlines
give n+1 parts. -/
def splitNlAux : List Char → List Char → List String
  | [], acc => [String.mk acc.reverse]
  | c :: rest, acc =>
    if c = '\n' then String.mk acc.reverse :: splitNlAux rest []
    else splitNlAux rest (c :: acc)

/-- The `text.split('\n')`. -/
def pySplitNl (s : String) : List String := splitNlAux s.toList []

/-- The per-line loop of `upload_logs`: a blank line parses to `None`
and counts failed; otherwise `process_log_with_enhanced_parsing` (which
never raises) and the store are called, a raising store (the `storeOk`
oracle, indexed by line position) counts the line failed, and a
successful store counts it processed.  Returns
`(processed_logs, failed_logs, stored records)`. -/
def uploadLoop (md5hex8 : String → String) (miner : Nat → MinerState) (storeOk : Nat → Bool) :
    List String → Nat → Nat × Nat × List StoredRec
  | [], _ => (0, 0, [])
  | line :: rest, i =>
    let acc := uploadLoop md5hex8 miner storeOk rest (i + 1)
    match parse_enhanced_log_line line "upload" with
    | some entry =>
      if storeOk i then
        (acc.1 + 1, acc.2.1,
          { line := line, entry := entry,
            tinfo := process_log_with_enhanced_parsing md5hex8 (miner i) entry.message }
            :: acc.2.2)
      else (acc.1, acc.2.1 + 1, acc.2.2)
    | none => (acc.1, acc.2.1 + 1, acc.2.2)

/-- The `upload_logs` after a successful decode: iterate the lines of
`content.strip().split('\n')`. -/
def upload_logs (md5hex8 : String → String) (miner : Nat → MinerState) (storeOk : Nat → Bool)
    (content : String) : Nat × Nat × List StoredRec :=
  uploadLoop md5hex8 miner storeOk (pySplitNl (pyStrip content)) 0

theorem parse_enhanced_none_iff (line src : String) :
    parse_enhanced_log_line line src = none ↔ pyStrip line = "" := by
  unfold parse_enhanced_log_line
  split
  · simpa
  · simp_all

theorem uploadLoop_partition (md5hex8 : String → String) (miner : Nat → MinerState)
    (storeOk : Nat → Bool) (lines : List String) (i : Nat) :
    (uploadLoop md5hex8 miner storeOk lines i).1 +
        (uploadLoop md5hex8 miner storeOk lines i).2.1 = lines.length ∧
    (uploadLoop md5hex8 miner storeOk lines i).1 =
        (uploadLoop md5hex8 miner storeOk lines i).2.2.length ∧
    (uploadLoop md5hex8 miner storeOk lines i).2.2.all
        (fun r => !(pyStrip r.line == "")) = true := by
  induction lines generalizing i with
  | nil => refine ⟨rfl, rfl, rfl⟩
  | cons line rest ih =>
    obtain ⟨ih1, ih2, ih3⟩ := ih (i + 1)
    unfold uploadLoop
    cases hp : parse_enhanced_log_line line "upload" with
    | some entry =>
      have hnb : pyStrip line ≠ "" := by
        intro hb
        rw [(parse_enhanced_none_iff line "upload").mpr hb] at hp
        cases hp
      by_cases hs : storeOk i
      · simp only [hs, if_true, List.length_cons, List.all_cons, List.length, Bool.and_eq_true]
        refine ⟨by omega, by omega, ?_, ih3⟩
        simpa using hnb
      · simp only [hs, Bool.false_eq_true, if_false, List.length_cons]
        exact ⟨by omega, ih2, ih3⟩
    | none =>
      simp only [List.length_cons]
      exact ⟨by omega, ih2, ih3⟩

/-- C10: in the upload loop every line of
`content.strip().split('\n')` increments exactly one of
`processed_logs` and `failed_logs` (their sum is the number of lines),
each processed line corresponds to exactly one persisted record, and no
persisted record comes from an empty or whitespace-only line (such lines
parse to `None`, are not persisted, and fall into `failed_logs`). -/
theorem C10_upload_counters (md5hex8 : String → String) (miner : Nat → MinerState)
    (storeOk : Nat → Bool) (content : String) :
    (upload_logs md5hex8 miner storeOk content).1 +
        (upload_logs md5hex8 miner storeOk content).2.1 =
      (pySplitNl (pyStrip content)).length ∧
    (upload_logs md5hex8 miner storeOk content).1 =
        (upload_logs md5hex8 miner storeOk content).2.2.length ∧
    (upload_logs md5hex8 miner storeOk content).2.2.all
        (fun r => !(pyStrip r.line == "")) = true :=
  uploadLoop_partition md5hex8 miner storeOk (pySplitNl (pyStrip content)) 0

/-- C8 (amended): when the miner fails, the record still gets a pseudo
template whose template string is the raw message with cluster size 1,
and — with a succeeding store — is still persisted (the processed
counter increments); but the id prefix depends on the failure mode:
`fallback_` + 8-hex-digest *only* for initialization failure
(`template_miner is None`); a runtime exception during mining yields
`error_` + digest, and a miner call yielding no usable id `tmpl_` +
digest.  The original claim's `fallback_` prefix for runtime exceptions
is refuted by `C8_counterexample`. -/
theorem C8_degraded_miner (md5hex8 : String → String) (msg line : String) :
    (process_log_with_enhanced_parsing md5hex8 MinerState.uninit msg =
      { template_id := TemplateId.str ("fallback_" ++ md5hex8 msg),
        template := msg, cluster_size := 1 }) ∧
    (process_log_with_enhanced_parsing md5hex8 MinerState.throws msg =
      { template_id := TemplateId.str ("error_" ++ md5hex8 msg),
        template := msg, cluster_size := 1 }) ∧
    (process_log_with_enhanced_parsing md5hex8 (MinerState.yields none) msg =
      { template_id := TemplateId.str ("tmpl_" ++ md5hex8 msg),
        template := msg, cluster_size := 1 }) ∧
    (pyStrip line ≠ "" →
      (uploadLoop md5hex8 (fun _ => MinerState.throws) (fun _ => true) [line] 0).1 = 1) := by
  refine ⟨rfl, rfl, rfl, fun hnb => ?_⟩
  unfold uploadLoop
  cases hp : parse_enhanced_log_line line "upload" with
  | some entry =>
    simp [uploadLoop]
  | none =>
    exact absurd ((parse_enhanced_none_iff line "upload").mp hp) hnb

theorem C8_degraded_miner_witness :
    (uploadLoop (fun _ => "0a1b2c3d") (fun _ => MinerState.throws) (fun _ => true) ["boom"] 0).1
      = 1 :=
  (C8_degraded_miner (fun _ => "0a1b2c3d") "x" "boom").2.2.2 (by decide)

/-- C8 (counterexample): a runtime exception during mining produces the
template id `error_` + digest, not `fallback_` + digest as claimed; the
record is nevertheless persisted with the raw message as template. -/
theorem C8_counterexample :
    (process_log_with_enhanced_parsing (fun _ => "0a1b2c3d") MinerState.throws "boom").template_id
        = TemplateId.str "error_0a1b2c3d" ∧
    (process_log_with_enhanced_parsing (fun _ => "0a1b2c3d") MinerState.throws "boom").template_id
        ≠ TemplateId.str ("fallback_" ++ "0a1b2c3d") := by
  refine ⟨rfl, by decide⟩

/-! ### Claim C9 — `run_detection` (`anomaly_detector.py` lines 438-472) -/

/-- One detection strategy: its log name and a body which may raise. -/
def Strategy (Df A : Type) : Type := String × (Df → Except String (List A))

/-- The strategy loop of `run_detection`: each strategy is run inside a
`try`; a raising strategy is logged (its name is recorded) and skipped,
and the loop continues with the remaining strategies. -/
def run_detection (Df A : Type) (dets : List (Strategy Df A)) (df : Df) :
    List A × List String :=
  dets.foldl (fun acc d =>
    match d.2 df with
    | Except.ok l => (acc.1 ++ l, acc.2)
    | Except.error _ => (acc.1, acc.2 ++ [d.1])) ([], [])

/-- The storage step after the loop: every collected anomaly is appended
to the anomaly store. -/
def run_cycle (Df A : Type) (store : List A) (dets : List (Strategy Df A)) (df : Df) :
    List A × List String :=
  (store ++ (run_detection Df A dets df).1, (run_detection Df A dets df).2)

theorem run_detection_foldl (Df A : Type) (dets : List (Strategy Df A)) (df : Df)
    (acc : List A × List String) :
    dets.foldl (fun acc d =>
      match d.2 df with
      | Except.ok l => (acc.1 ++ l, acc.2)
      | Except.error _ => (acc.1, acc.2 ++ [d.1])) acc =
    (acc.1 ++ (dets.map (fun d =>
        match d.2 df with
        | Except.ok l => l
        | Except.error _ => [])).flatten,
     acc.2 ++ dets.filterMap (fun d =>
        match d.2 df with
        | Except.ok _ => none
        | Except.error _ => some d.1)) := by
  induction dets generalizing acc with
  | nil => simp
  | cons d rest ih =>
    simp only [List.foldl_cons, List.map_cons, List.filterMap_cons]
    cases hd : d.2 df with
    | ok l =>
      rw [ih]
      simp [List.append_assoc]
    | error e =>
      rw [ih]
      simp [List.append_assoc]

/-- C9: in a detection cycle, every raising strategy is logged and
skipped while all remaining strategies still run: the collected
anomalies are exactly the concatenation, in order, of the outputs of the
non-raising strategies, the logged names are exactly the raising ones,
and all collected anomalies are appended to storage — one raising
strategy never aborts the cycle. -/
theorem C9_strategy_isolation (Df A : Type) (store : List A) (dets : List (Strategy Df A))
    (df : Df) :
    (run_detection Df A dets df).1 =
      (dets.map (fun d =>
        match d.2 df with
        | Except.ok l => l
        | Except.error _ => [])).flatten ∧
    (run_detection Df A dets df).2 =
      dets.filterMap (fun d =>
        match d.2 df with
        | Except.ok _ => none
        | Except.error _ => some d.1) ∧
    run_cycle Df A store dets df =
      (store ++ (run_detection Df A dets df).1, (run_detection Df A dets df).2) := by
  refine ⟨?_, ?_, rfl⟩
  · unfold run_detection
    rw [run_detection_foldl]
    simp
  · unfold run_detection
    rw [run_detection_foldl]
    simp
